import Mathlib

/-!
# Bigtable instance resource: diff hooks and lifecycle operations

A shallow embedding of `third_party/terraform/resources/resource_bigtable_instance.go`.

* Go `string` is `String`; Go `int` (64 bits on the platforms the provider is
  built for) is `Int`; the conversion `int32(x)` is `toInt32 x`.
* A Go `error` is a `GoError`: its `Error()` text and, when it is a Google API
  error, the HTTP status code.  A function returning `error` returns
  `Option GoError` (`none` is `nil`).
* One `cluster` block (a `map[string]interface{}` with the four schema keys) is
  a `Cluster`.
* `*schema.ResourceDiff` and `*schema.ResourceData` are records that the
  functions take and give back (explicit state passing).
* The remote service is an `InstanceAdminClient`: for each method, its answer as
  a function of the arguments of the call.  A lifecycle operation gives back an
  `Outcome`: the returned error, the resource data, and the list of calls it
  made, in order.  Calls of `log.Printf` have no effect on any of these and are
  left out.
-/

namespace BigtableInstance

/-! ## Errors -/

/-- A Go `error` value: the text of `Error()`, and the HTTP status code when the
error is a `googleapi.Error`. -/
structure GoError where
  msg : String
  googleApiCode : Option Int
  deriving DecidableEq, Repr

/-- The error built by `fmt.Errorf`: a plain error carrying the formatted text. -/
def Errorf (text : String) : GoError := ⟨text, none⟩

/-! ## Schema values -/

/-- One element of the `cluster` list, with the keys of the nested schema
(source lines 40 to 61). -/
structure Cluster where
  cluster_id : String
  zone : String
  num_nodes : Int
  storage_type : String
  deriving DecidableEq, Repr

/-- The part of `*schema.ResourceDiff` the two diff hooks read and write: the
planned `instance_type`, the prior and the planned `cluster` list, and the keys
given a new value through `SetNew`. -/
structure ResourceDiff where
  instance_type : String
  oldCluster : List Cluster
  newCluster : List Cluster
  updatedKeys : List String
  deriving DecidableEq, Repr

/-- The call `diff.Get("cluster.#")`: the number of planned cluster blocks. -/
def ResourceDiff.GetClusterCount (diff : ResourceDiff) : Int :=
  diff.newCluster.length

/-- The call `diff.Get("cluster.<i>.num_nodes")`: the planned node count of
block `i`, the zero value when there is no such block. -/
def ResourceDiff.GetClusterNumNodes (diff : ResourceDiff) (i : Nat) : Int :=
  ((diff.newCluster.get? i).map Cluster.num_nodes).getD 0

/-- The call `diff.GetChange("cluster.#")`: prior and planned block counts. -/
def ResourceDiff.GetChangeClusterCount (diff : ResourceDiff) : Int × Int :=
  (diff.oldCluster.length, diff.newCluster.length)

/-- The call `diff.GetChange("cluster.<i>.cluster_id")`: prior and planned id of
block `i`; `none` stands for a `nil` interface value (no block `i`). -/
def ResourceDiff.GetChangeClusterId (diff : ResourceDiff) (i : Nat) :
    Option String × Option String :=
  ((diff.oldCluster.get? i).map Cluster.cluster_id,
   (diff.newCluster.get? i).map Cluster.cluster_id)

/-- The call `diff.GetChange("cluster.<i>")`: prior and planned block `i`. -/
def ResourceDiff.GetChangeCluster (diff : ResourceDiff) (i : Nat) :
    Option Cluster × Option Cluster :=
  (diff.oldCluster.get? i, diff.newCluster.get? i)

/-- The call `diff.SetNew("cluster", value)` of the plugin SDK.  The key
`cluster` is `Computed` (source line 37) and `value` is a list of blocks of the
nested schema, so the SDK stores it as the planned value and records the key. -/
def ResourceDiff.SetNewCluster (diff : ResourceDiff) (value : List Cluster) :
    Except GoError ResourceDiff :=
  .ok { diff with newCluster := value, updatedKeys := diff.updatedKeys ++ ["cluster"] }

/-! ## Go maps keyed by strings -/

/-- A Go `map[string]V` as an association list; the binding nearest the head
is the current one. -/
abbrev GoMap (V : Type) := List (String × V)

/-- The assignment `m[k] = v`. -/
def GoMap.set {V : Type} (m : GoMap V) (k : String) (v : V) : GoMap V := (k, v) :: m

/-- The lookup `v, ok := m[k]`. -/
def GoMap.get {V : Type} (m : GoMap V) (k : String) : Option V := List.lookup k m

/-! ## Validation hook 1 (source lines 314 to 325) -/

def resourceBigtableInstanceValidateDevelopment (diff : ResourceDiff) : Option GoError :=
  if diff.instance_type ≠ "DEVELOPMENT" then
    none
  else if diff.GetClusterCount ≠ 1 then
    some (Errorf "config is invalid: instance with instance_type=\"DEVELOPMENT\" should have exactly one \"cluster\" block")
  else if diff.GetClusterNumNodes 0 ≠ 0 then
    some (Errorf "config is invalid: num_nodes cannot be set for instance_type=\"DEVELOPMENT\"")
  else
    none

/-! ## Validation hook 2 (source lines 327 to 368) -/

/-- One pass of the first loop (source lines 345 to 352) at index `i`, on the
pair `(old_ids, clusters)`. -/
def reorderCollect (diff : ResourceDiff) (st : List String × GoMap Cluster) (i : Nat) :
    List String × GoMap Cluster :=
  let (old_id, new_id) := diff.GetChangeClusterId i
  let old_ids :=
    if old_id ≠ none ∧ old_id ≠ some "" then st.1 ++ [old_id.getD ""] else st.1
  let c := (diff.GetChangeCluster i).2
  -- the assertions on new_id and c hold for every index below new_count
  match new_id, c with
  | some k, some v => (old_ids, st.2.set k v)
  | _, _ => (old_ids, st.2)

/-- One pass of the second loop (source lines 356 to 360). -/
def reorderPick (clusters : GoMap Cluster) (old_cluster_order : List Cluster) (id : String) :
    List Cluster :=
  match clusters.get id with
  | some c => old_cluster_order ++ [c]
  | none => old_cluster_order

def resourceBigtableInstanceClusterReorderTypeList (diff : ResourceDiff) :
    Option GoError × ResourceDiff :=
  let (old_count, new_count) := diff.GetChangeClusterCount
  if new_count < 1 then
    (some (Errorf "config is invalid: Too few cluster blocks: Should have at least 1 \"cluster\" block"), diff)
  else if new_count > 4 then
    (some (Errorf "config is invalid: Too many cluster blocks: No more than 4 \"cluster\" blocks are allowed"), diff)
  else if old_count ≠ new_count then
    (none, diff)
  else
    let (old_ids, clusters) :=
      (List.range new_count.toNat).foldl (reorderCollect diff) ([], [])
    let old_cluster_order := old_ids.foldl (reorderPick clusters) []
    match diff.SetNewCluster old_cluster_order with
    | .error err => (some (Errorf ("Error setting cluster diff: " ++ err.msg)), diff)
    | .ok diff' => (none, diff')

/-! ## The remote administrative API and the resource data -/

/-- The 32 bit conversion `int32(x)` of a Go `int`: the value is reduced modulo
`2^32` into the range from `-2^31` up to `2^31 - 1`. -/
def toInt32 (x : Int) : Int := (x + 2147483648) % 4294967296 - 2147483648

/-- The record `bigtable.InstanceInfo`, with the fields the resource reads. -/
structure InstanceInfo where
  Name : String
  DisplayName : String
  deriving DecidableEq, Repr

/-- The record `bigtable.ClusterInfo`, with the fields the resource reads. -/
structure ClusterInfo where
  Name : String
  Zone : String
  ServeNodes : Int
  deriving DecidableEq, Repr

/-- The type `bigtable.InstanceType`; `UNSPECIFIED` is its zero value. -/
inductive InstanceType where
  | UNSPECIFIED
  | PRODUCTION
  | DEVELOPMENT
  deriving DecidableEq, Repr

/-- The type `bigtable.StorageType`; `SSD` is its zero value. -/
inductive StorageType where
  | SSD
  | HDD
  deriving DecidableEq, Repr

/-- The record `bigtable.ClusterConfig`. -/
structure ClusterConfig where
  InstanceID : String
  Zone : String
  ClusterID : String
  NumNodes : Int
  StorageType : StorageType
  deriving DecidableEq, Repr

/-- The record `bigtable.InstanceWithClustersConfig`. -/
structure InstanceWithClustersConfig where
  InstanceID : String
  DisplayName : String
  InstanceType : InstanceType
  Clusters : List ClusterConfig
  deriving DecidableEq, Repr

/-- The instance admin client `c`: for each method the resource calls, the
answer of the remote service to that call (`none` or `.ok` when it succeeds). -/
structure InstanceAdminClient where
  CreateInstanceWithClusters : InstanceWithClustersConfig → Option GoError
  InstanceInfo : String → Except GoError InstanceInfo
  GetCluster : String → String → Except GoError ClusterInfo
  Clusters : String → Except GoError (List ClusterInfo)
  UpdateCluster : String → String → Int → Option GoError
  DeleteInstance : String → Option GoError

/-- The part of `*schema.ResourceData` the lifecycle operations use: the
tracking id and the values of the schema keys. -/
structure ResourceData where
  id : String
  name : String
  display_name : String
  instance_type : String
  project : String
  cluster : List Cluster
  deriving DecidableEq, Repr

/-- The call `d.SetId(v)`. -/
def ResourceData.SetId (d : ResourceData) (v : String) : ResourceData := { d with id := v }

/-- The call `d.GetOk("display_name")`: the value, and whether it is set to
something other than the zero value. -/
def ResourceData.GetOkDisplayName (d : ResourceData) : String × Bool :=
  (d.display_name, decide (d.display_name ≠ ""))

/-- The call `d.Set("cluster", value)` of the plugin SDK.  The value is a list
of blocks of the nested schema, which the SDK stores. -/
def ResourceData.SetCluster (d : ResourceData) (value : List Cluster) :
    Except GoError ResourceData :=
  .ok { d with cluster := value }

/-- What the operations get through `meta`, and the helpers they call that are
not in the source file, taken as parameters: `getProject(d, config)`, the client
factory `config.bigtableClientFactory.NewInstanceAdminClient(project)`, and the
rendering of the format verb `%q`. -/
structure Config where
  getProject : ResourceData → Except GoError String
  NewInstanceAdminClient : String → Except GoError InstanceAdminClient
  fmtQ : String → String

/-- Modelled from the spec: the helper `isGoogleApiErrorWithCode` is not in the
source file.  The spec's Read paragraph names the skipped case "absent remotely
(404)", so the helper holds of a Google API error with the given status code. -/
def isGoogleApiErrorWithCode (err : GoError) (errCode : Int) : Bool :=
  decide (err.googleApiCode = some errCode)

/-- What an operation does that is visible from outside, in order: the calls on
the client factory and the client, and the calls of `d.SetId`. -/
inductive Event where
  | NewInstanceAdminClient (project : String)
  | CreateInstanceWithClusters (conf : InstanceWithClustersConfig)
  | InstanceInfo (instanceId : String)
  | GetCluster (instanceId clusterId : String)
  | Clusters (instanceId : String)
  | UpdateCluster (instanceId clusterId : String) (serveNodes : Int)
  | DeleteInstance (instanceId : String)
  | Close
  | SetId (v : String)
  deriving DecidableEq, Repr

/-- The result of a lifecycle operation: the returned error, the resource data
it leaves, and the events it caused. -/
structure Outcome where
  err : Option GoError
  d : ResourceData
  events : List Event

/-! ## Helpers (source lines 282 to 312) -/

def flattenBigtableCluster (c : ClusterInfo) (storageType : String) : Cluster :=
  { zone := c.Zone, num_nodes := c.ServeNodes, cluster_id := c.Name, storage_type := storageType }

def expandBigtableClusters (clusters : List Cluster) (instanceID : String) :
    List ClusterConfig :=
  clusters.foldl (fun results cluster =>
    let zone := cluster.zone
    let storageType : StorageType :=
      if cluster.storage_type = "SSD" then StorageType.SSD
      else if cluster.storage_type = "HDD" then StorageType.HDD
      else StorageType.SSD
    results ++ [{ InstanceID := instanceID, Zone := zone, ClusterID := cluster.cluster_id,
                  NumNodes := toInt32 cluster.num_nodes, StorageType := storageType }]) []

/-! ## Read (source lines 163 to 212) -/

/-- The loop of Read over the locally known clusters (source lines 190 to 201):
the remaining clusters, `clusterState` so far and the events so far. -/
def readClusters (c : InstanceAdminClient) (fmtQ : String → String) (instanceName : String) :
    List Cluster → List Cluster → List Event → Except GoError (List Cluster) × List Event
  | [], clusterState, events => (.ok clusterState, events)
  | cluster :: rest, clusterState, events =>
    let events := events ++ [Event.GetCluster instanceName cluster.cluster_id]
    match c.GetCluster instanceName cluster.cluster_id with
    | .error err =>
      if isGoogleApiErrorWithCode err 404 then
        readClusters c fmtQ instanceName rest clusterState events
      else
        (.error (Errorf ("Error retrieving cluster " ++ fmtQ cluster.cluster_id ++ ": " ++ err.msg)),
         events)
    | .ok clus =>
      readClusters c fmtQ instanceName rest
        (clusterState ++ [flattenBigtableCluster clus cluster.storage_type]) events

def resourceBigtableInstanceRead (config : Config) (d : ResourceData) : Outcome :=
  match config.getProject d with
  | .error err => ⟨some err, d, []⟩
  | .ok project =>
    match config.NewInstanceAdminClient project with
    | .error err =>
      ⟨some (Errorf ("Error starting instance admin client. " ++ err.msg)), d,
       [Event.NewInstanceAdminClient project]⟩
    | .ok c =>
      match c.InstanceInfo d.id with
      | .error err =>
        let d1 := d.SetId ""
        ⟨some (Errorf ("Error retrieving instance. Could not find " ++ d1.id ++ ". " ++ err.msg)),
         d1,
         [Event.NewInstanceAdminClient project, Event.InstanceInfo d.id, Event.SetId "",
          Event.Close]⟩
      | .ok inst =>
        let d1 := { d with project := project }
        match readClusters c config.fmtQ inst.Name d1.cluster []
            [Event.NewInstanceAdminClient project, Event.InstanceInfo d.id] with
        | (.error err, events) => ⟨some err, d1, events ++ [Event.Close]⟩
        | (.ok clusterState, events) =>
          match d1.SetCluster clusterState with
          | .error err =>
            ⟨some (Errorf ("Error setting clusters in state: " ++ err.msg)), d1,
             events ++ [Event.Close]⟩
          | .ok d2 =>
            ⟨none, { d2 with name := inst.Name, display_name := inst.DisplayName },
             events ++ [Event.Close]⟩

/-! ## Create (source lines 118 to 161) -/

/-- The configuration Create builds (source lines 127 to 144). -/
def createConf (d : ResourceData) : InstanceWithClustersConfig :=
  let InstanceID := d.name
  let (displayName, ok) := d.GetOkDisplayName
  let DisplayName := if !ok then InstanceID else displayName
  let InstanceType : InstanceType :=
    if d.instance_type = "DEVELOPMENT" then InstanceType.DEVELOPMENT
    else if d.instance_type = "PRODUCTION" then InstanceType.PRODUCTION
    else InstanceType.UNSPECIFIED
  { InstanceID := InstanceID, DisplayName := DisplayName, InstanceType := InstanceType,
    Clusters := expandBigtableClusters d.cluster InstanceID }

def resourceBigtableInstanceCreate (config : Config) (d : ResourceData) : Outcome :=
  match config.getProject d with
  | .error err => ⟨some err, d, []⟩
  | .ok project =>
    let conf := createConf d
    match config.NewInstanceAdminClient project with
    | .error err =>
      ⟨some (Errorf ("Error starting instance admin client. " ++ err.msg)), d,
       [Event.NewInstanceAdminClient project]⟩
    | .ok c =>
      match c.CreateInstanceWithClusters conf with
      | some err =>
        ⟨some (Errorf ("Error creating instance. " ++ err.msg)), d,
         [Event.NewInstanceAdminClient project, Event.CreateInstanceWithClusters conf,
          Event.Close]⟩
      | none =>
        let d1 := d.SetId conf.InstanceID
        let r := resourceBigtableInstanceRead config d1
        ⟨r.err, r.d,
         [Event.NewInstanceAdminClient project, Event.CreateInstanceWithClusters conf,
          Event.SetId conf.InstanceID] ++ r.events ++ [Event.Close]⟩

/-! ## Update (source lines 214 to 253) -/

/-- The map built from the live clusters (source lines 234 to 237). -/
def buildClusterMap (clusters : List ClusterInfo) : GoMap ClusterInfo :=
  clusters.foldl (fun clusterMap cluster => clusterMap.set cluster.Name cluster) []

/-- The loop of Update over the declared clusters (source lines 239 to 250):
the remaining clusters and the events so far. -/
def updateClusters (c : InstanceAdminClient) (name : String) (clusterMap : GoMap ClusterInfo) :
    List Cluster → List Event → Option GoError × List Event
  | [], events => (none, events)
  | config :: rest, events =>
    let cluster_id := config.cluster_id
    match clusterMap.get cluster_id with
    | some cluster =>
      if cluster.ServeNodes ≠ config.num_nodes then
        let events :=
          events ++ [Event.UpdateCluster name cluster.Name (toInt32 config.num_nodes)]
        match c.UpdateCluster name cluster.Name (toInt32 config.num_nodes) with
        | some _ =>
          (some (Errorf ("Error updating cluster " ++ cluster.Name ++ " for instance " ++ name)),
           events)
        | none => updateClusters c name clusterMap rest events
      else updateClusters c name clusterMap rest events
    | none => updateClusters c name clusterMap rest events

def resourceBigtableInstanceUpdate (config : Config) (d : ResourceData) : Outcome :=
  match config.getProject d with
  | .error err => ⟨some err, d, []⟩
  | .ok project =>
    match config.NewInstanceAdminClient project with
    | .error err =>
      ⟨some (Errorf ("Error starting instance admin client. " ++ err.msg)), d,
       [Event.NewInstanceAdminClient project]⟩
    | .ok c =>
      match c.Clusters d.name with
      | .error err =>
        ⟨some (Errorf ("Error retrieving clusters for instance " ++ err.msg)), d,
         [Event.NewInstanceAdminClient project, Event.Clusters d.name, Event.Close]⟩
      | .ok clusters =>
        let clusterMap := buildClusterMap clusters
        match updateClusters c d.name clusterMap d.cluster
            [Event.NewInstanceAdminClient project, Event.Clusters d.name] with
        | (some err, events) => ⟨some err, d, events ++ [Event.Close]⟩
        | (none, events) =>
          let r := resourceBigtableInstanceRead config d
          ⟨r.err, r.d, events ++ r.events ++ [Event.Close]⟩

/-! ## Destroy (source lines 255 to 280) -/

def resourceBigtableInstanceDestroy (config : Config) (d : ResourceData) : Outcome :=
  match config.getProject d with
  | .error err => ⟨some err, d, []⟩
  | .ok project =>
    match config.NewInstanceAdminClient project with
    | .error err =>
      ⟨some (Errorf ("Error starting instance admin client. " ++ err.msg)), d,
       [Event.NewInstanceAdminClient project]⟩
    | .ok c =>
      let name := d.id
      match c.DeleteInstance name with
      | some err =>
        ⟨some (Errorf ("Error deleting instance. " ++ err.msg)), d,
         [Event.NewInstanceAdminClient project, Event.DeleteInstance name, Event.Close]⟩
      | none =>
        ⟨none, d.SetId "",
         [Event.NewInstanceAdminClient project, Event.DeleteInstance name, Event.SetId "",
          Event.Close]⟩

/-! ## Vocabulary of the statements -/

/-- The `UpdateCluster` calls among the events, in order, each with its three
arguments. -/
def updateClusterCalls (events : List Event) : List (String × String × Int) :=
  events.filterMap (fun e =>
    match e with
    | Event.UpdateCluster i c n => some (i, c, n)
    | _ => none)

/-- The live cluster a cluster id stands for: the last cluster of that name in
the list the remote service returned. -/
def liveClusterNamed (live : List ClusterInfo) (id : String) : Option ClusterInfo :=
  live.reverse.find? (fun l => decide (l.Name = id))

/-- The text `part` occurs inside the text `whole`. -/
def containsText (whole part : String) : Prop := part.data <:+: whole.data

instance (whole part : String) : Decidable (containsText whole part) := by
  unfold containsText; infer_instance

/-- The id `x` comes before the id `y` in the list `ids`: some occurrence of `x`
stands at a smaller index than some occurrence of `y`. -/
def precedes (x y : String) (ids : List String) : Prop := [x, y].Sublist ids

instance (x y : String) (ids : List String) : Decidable (precedes x y ids) := by
  unfold precedes; infer_instance

/-- Every binding of the map pairs a block with its own id. -/
def KeyedById (m : GoMap Cluster) : Prop := ∀ p ∈ m, p.2.cluster_id = p.1

/-- What the state is to hold for one locally known cluster, field by field:
when the lookup finds the live cluster, a block whose `cluster_id`, `zone` and
`num_nodes` are the live cluster's `Name`, `Zone` and `ServeNodes` and whose
`storage_type` is the locally known one; nothing when the lookup fails. -/
def foundCluster (c : InstanceAdminClient) (instanceName : String) (cluster : Cluster) :
    Option Cluster :=
  match c.GetCluster instanceName cluster.cluster_id with
  | .ok clus =>
    some { cluster_id := clus.Name, zone := clus.Zone, num_nodes := clus.ServeNodes,
           storage_type := cluster.storage_type }
  | .error _ => none

/-- The instance lookup of a Read on the data `d` fails: the project and the
client are available and `InstanceInfo` on the tracking id returns an error. -/
def instanceLookupFails (config : Config) (d : ResourceData) : Bool :=
  match config.getProject d with
  | .ok project =>
    match config.NewInstanceAdminClient project with
    | .ok c =>
      match c.InstanceInfo d.id with
      | .error _ => true
      | .ok _ => false
    | .error _ => false
  | .error _ => false

/-- A declared cluster calls for an update: its id names a live cluster whose
serve node count differs from the declared node count. -/
def needsUpdate (live : List ClusterInfo) (cluster : Cluster) : Bool :=
  match liveClusterNamed live cluster.cluster_id with
  | some l => decide (l.ServeNodes ≠ cluster.num_nodes)
  | none => false

/-- The configurations submitted through `CreateInstanceWithClusters`, in order. -/
def createCalls (events : List Event) : List InstanceWithClustersConfig :=
  events.filterMap (fun e =>
    match e with
    | Event.CreateInstanceWithClusters conf => some conf
    | _ => none)

/-- The arguments of the `DeleteInstance` calls among the events, in order. -/
def deleteCalls (events : List Event) : List String :=
  events.filterMap (fun e =>
    match e with
    | Event.DeleteInstance n => some n
    | _ => none)

/-! ## Concrete inputs -/

/-- A remote service that holds cluster "a" with 3 serve nodes, answers 404 for
cluster "gone" and 503 for cluster "down", and accepts every change. -/
def sampleClient : InstanceAdminClient where
  CreateInstanceWithClusters := fun _ => none
  InstanceInfo := fun i => .ok ⟨i, "display"⟩
  GetCluster := fun _ k =>
    if k = "gone" then .error ⟨"cluster not found", some 404⟩
    else if k = "down" then .error ⟨"backend unavailable", some 503⟩
    else .ok ⟨k, "us-east1-b", 3⟩
  Clusters := fun _ => .ok [⟨"a", "us-east1-b", 3⟩]
  UpdateCluster := fun _ _ _ => none
  DeleteInstance := fun _ => none

/-- The sample service, except that every UpdateCluster call is refused. -/
def refusingClient : InstanceAdminClient :=
  { sampleClient with UpdateCluster := fun _ _ _ => some ⟨"quota exceeded", some 429⟩ }

/-- The sample service, except that DeleteInstance is refused. -/
def undeletableClient : InstanceAdminClient :=
  { sampleClient with DeleteInstance := fun _ => some ⟨"permission denied", some 403⟩ }

/-- The sample service, except that the live clusters differ from one another:
"a" lies in us-east1-b with 3 serve nodes, "b" in europe-west1-c with 7, and
"gone" answers 404. -/
def variedClient : InstanceAdminClient :=
  { sampleClient with
    GetCluster := fun _ k =>
      if k = "gone" then .error ⟨"cluster not found", some 404⟩
      else if k = "b" then .ok ⟨"b", "europe-west1-c", 7⟩
      else .ok ⟨k, "us-east1-b", 3⟩ }

/-- The sample service, except that the instance lookup is refused. -/
def lostClient : InstanceAdminClient :=
  { sampleClient with InstanceInfo := fun _ => .error ⟨"instance not found", some 404⟩ }

def variedConfig : Config :=
  ⟨fun _ => .ok "proj", fun _ => .ok variedClient, fun s => "\"" ++ s ++ "\""⟩

def lostConfig : Config :=
  ⟨fun _ => .ok "proj", fun _ => .ok lostClient, fun s => "\"" ++ s ++ "\""⟩

/-- Resource data before Create: no tracking id yet, instance name "inst", the
given display name and cluster blocks. -/
def newData (displayName : String) (clusters : List Cluster) : ResourceData :=
  ⟨"", "inst", displayName, "PRODUCTION", "", clusters⟩

def sampleConfig : Config :=
  ⟨fun _ => .ok "proj", fun _ => .ok sampleClient, fun s => "\"" ++ s ++ "\""⟩

def refusingConfig : Config :=
  ⟨fun _ => .ok "proj", fun _ => .ok refusingClient, fun s => "\"" ++ s ++ "\""⟩

def undeletableConfig : Config :=
  ⟨fun _ => .ok "proj", fun _ => .ok undeletableClient, fun s => "\"" ++ s ++ "\""⟩

def offlineConfig : Config :=
  ⟨fun _ => .ok "proj", fun _ => .error ⟨"no credentials", none⟩, fun s => "\"" ++ s ++ "\""⟩

/-- Resource data of instance "inst" with the given cluster blocks. -/
def sampleData (clusters : List Cluster) : ResourceData :=
  ⟨"inst", "inst", "", "PRODUCTION", "", clusters⟩

def clusterA (numNodes : Int) : Cluster := ⟨"a", "us-east1-b", numNodes, "SSD"⟩
def clusterB : Cluster := ⟨"b", "us-east1-c", 3, "SSD"⟩
def clusterGone : Cluster := ⟨"gone", "us-east1-c", 3, "HDD"⟩
def clusterDown : Cluster := ⟨"down", "us-east1-d", 3, "SSD"⟩
def clusterNoId : Cluster := ⟨"", "us-east1-b", 3, "SSD"⟩

/-- The update calls as the specification words them: one for each
declared cluster whose id is the name of some live cluster with a different
serve node count, carrying the declared node count itself. -/
def statedUpdateCalls (live : List ClusterInfo) (d : ResourceData) :
    List (String × String × Int) :=
  (d.cluster.filter (fun cl =>
      decide (∃ l ∈ live, l.Name = cl.cluster_id ∧ l.ServeNodes ≠ cl.num_nodes))).map
    (fun cl => (d.name, cl.cluster_id, cl.num_nodes))

/-! # Theorems -/

/-! ## Lemmas on the reordering loops -/

theorem reorderCollect_range (diff : ResourceDiff) (k : Nat)
    (hold : k ≤ diff.oldCluster.length) (hnew : k ≤ diff.newCluster.length) :
    (List.range k).foldl (reorderCollect diff) ([], []) =
      ((((diff.oldCluster.take k).map Cluster.cluster_id).filter (fun s => decide (s ≠ ""))),
       ((diff.newCluster.take k).map (fun c => (c.cluster_id, c))).reverse) := by
  induction k with
  | zero => simp
  | succ k ih =>
    have hk1 : k < diff.oldCluster.length := hold
    have hk2 : k < diff.newCluster.length := hnew
    rw [List.range_succ, List.foldl_append, ih (Nat.le_of_lt hk1) (Nat.le_of_lt hk2)]
    simp only [List.foldl_cons, List.foldl_nil, reorderCollect, ResourceDiff.GetChangeClusterId,
      ResourceDiff.GetChangeCluster, List.take_succ, List.get?_eq_getElem?,
      List.getElem?_eq_getElem hk1, List.getElem?_eq_getElem hk2, Option.map_some',
      Option.toList_some, List.map_append, List.filter_append, List.reverse_append, GoMap.set]
    by_cases h : (diff.oldCluster[k]).cluster_id = "" <;> simp [h]

theorem reorderPick_foldl (clusters : GoMap Cluster) (ids : List String) (acc : List Cluster) :
    ids.foldl (reorderPick clusters) acc = acc ++ ids.filterMap clusters.get := by
  induction ids generalizing acc with
  | nil => simp
  | cons id rest ih =>
    rw [List.foldl_cons, ih]
    unfold reorderPick
    cases h : clusters.get id <;> simp [List.filterMap_cons, h]

theorem GoMap.get_some_mem {V : Type} (m : GoMap V) (k : String) (v : V)
    (h : m.get k = some v) : (k, v) ∈ m := by
  induction m with
  | nil => simp [GoMap.get] at h
  | cons p rest ih =>
    obtain ⟨k', v'⟩ := p
    by_cases hk : k = k'
    · subst hk
      simp [GoMap.get, List.lookup] at h
      simp [h]
    · have hb : (k == k') = false := by simpa using hk
      simp only [GoMap.get, List.lookup, hb] at h
      exact List.mem_cons_of_mem _ (ih h)

theorem GoMap.get_isSome_iff {V : Type} (m : GoMap V) (k : String) :
    (m.get k).isSome = true ↔ k ∈ m.map Prod.fst := by
  induction m with
  | nil => simp [GoMap.get]
  | cons p rest ih =>
    obtain ⟨k', v'⟩ := p
    by_cases hk : k = k'
    · subst hk
      simp [GoMap.get, List.lookup]
    · have hb : (k == k') = false := by simpa using hk
      have ih' : (List.lookup k rest).isSome = true ↔ k ∈ rest.map Prod.fst := ih
      simp only [GoMap.get, List.lookup, hb, List.map_cons, List.mem_cons, hk, false_or]
      exact ih'

theorem filterMap_get_ids (m : GoMap Cluster) (hm : KeyedById m) (ids : List String) :
    (ids.filterMap m.get).map Cluster.cluster_id =
      ids.filter (fun id => decide (id ∈ m.map Prod.fst)) := by
  induction ids with
  | nil => simp
  | cons id rest ih =>
    cases h : m.get id with
    | none =>
      have hn : id ∉ m.map Prod.fst := by
        intro hmem
        have := (GoMap.get_isSome_iff m id).2 hmem
        simp [h] at this
      rw [List.filterMap_cons_none h, ih, List.filter_cons_of_neg (by simpa using hn)]
    | some c =>
      have hy : id ∈ m.map Prod.fst := (GoMap.get_isSome_iff m id).1 (by simp [h])
      have hc : c.cluster_id = id := hm _ (GoMap.get_some_mem m id c h)
      rw [List.filterMap_cons_some h, List.map_cons, ih, List.filter_cons_of_pos (by simpa using hy), hc]

theorem keyedById_new (l : List Cluster) :
    KeyedById (l.map (fun c => (c.cluster_id, c))).reverse := by
  intro p hp
  simp only [List.mem_reverse, List.mem_map] at hp
  obtain ⟨c, _, rfl⟩ := hp
  rfl

theorem keys_new (l : List Cluster) (k : String) :
    k ∈ ((l.map (fun c => (c.cluster_id, c))).reverse).map Prod.fst ↔
      k ∈ l.map Cluster.cluster_id := by
  simp

/-- The outcome of the hook when the counts agree and lie in the range 1 to 4. -/
theorem reorder_equal_counts (diff : ResourceDiff)
    (hlen : diff.oldCluster.length = diff.newCluster.length)
    (h1 : 1 ≤ diff.newCluster.length) (h4 : diff.newCluster.length ≤ 4) :
    resourceBigtableInstanceClusterReorderTypeList diff =
      (none, { diff with
        newCluster :=
          (((diff.oldCluster.map Cluster.cluster_id).filter (fun s => decide (s ≠ ""))).filterMap
            (GoMap.get (diff.newCluster.map (fun c => (c.cluster_id, c))).reverse)),
        updatedKeys := diff.updatedKeys ++ ["cluster"] }) := by
  have hA := reorderCollect_range diff diff.newCluster.length (le_of_eq hlen.symm) le_rfl
  rw [List.take_length] at hA
  have hB : List.take diff.newCluster.length diff.oldCluster = diff.oldCluster := by
    rw [← hlen, List.take_length]
  rw [hB] at hA
  unfold resourceBigtableInstanceClusterReorderTypeList
  simp only [ResourceDiff.GetChangeClusterCount, hlen]
  have c1 : ¬ ((diff.newCluster.length : Int) < 1) := by omega
  have c2 : ¬ ((diff.newCluster.length : Int) > 4) := by omega
  simp only [c1, c2, if_false, ne_eq, not_true_eq_false, Int.toNat_ofNat, hA,
    reorderPick_foldl, List.nil_append, ResourceDiff.SetNewCluster]

/-- C1: the development check returns an error exactly when `instance_type` is
"DEVELOPMENT" and either the number of cluster blocks is not 1 or the node count
of block 0 is not 0. -/
theorem validateDevelopment_error_iff (diff : ResourceDiff) :
    (resourceBigtableInstanceValidateDevelopment diff).isSome = true ↔
      (diff.instance_type = "DEVELOPMENT" ∧
        (diff.newCluster.length ≠ 1 ∨ diff.GetClusterNumNodes 0 ≠ 0)) := by
  unfold resourceBigtableInstanceValidateDevelopment ResourceDiff.GetClusterCount
  by_cases ht : diff.instance_type = "DEVELOPMENT"
  · by_cases hc : diff.newCluster.length = 1
    · by_cases hn : diff.GetClusterNumNodes 0 = 0 <;> simp [ht, hc, hn]
    · have hc' : ¬ ((diff.newCluster.length : Int) = 1) := by omega
      simp [ht, hc, hc']
  · simp [ht]

/-- C2: a planned cluster count below 1 or above 4 makes the reorder hook return
an error and hand the diff back untouched, whatever the prior count; a planned
count from 1 to 4 gives no error. -/
theorem reorder_bounds (diff : ResourceDiff) :
    ((diff.newCluster.length < 1 ∨ 4 < diff.newCluster.length) →
      (resourceBigtableInstanceClusterReorderTypeList diff).1.isSome = true ∧
      (resourceBigtableInstanceClusterReorderTypeList diff).2 = diff) ∧
    ((1 ≤ diff.newCluster.length ∧ diff.newCluster.length ≤ 4) →
      (resourceBigtableInstanceClusterReorderTypeList diff).1 = none) := by
  constructor
  · intro h
    unfold resourceBigtableInstanceClusterReorderTypeList
    simp only [ResourceDiff.GetChangeClusterCount]
    by_cases c1 : (diff.newCluster.length : Int) < 1
    · simp [c1]
    · have c2 : (diff.newCluster.length : Int) > 4 := by omega
      simp [c1, c2]
  · rintro ⟨h1, h4⟩
    by_cases hlen : diff.oldCluster.length = diff.newCluster.length
    · rw [reorder_equal_counts diff hlen h1 h4]
    · unfold resourceBigtableInstanceClusterReorderTypeList
      simp only [ResourceDiff.GetChangeClusterCount]
      have c1 : ¬ ((diff.newCluster.length : Int) < 1) := by omega
      have c2 : ¬ ((diff.newCluster.length : Int) > 4) := by omega
      have c3 : (diff.oldCluster.length : Int) ≠ diff.newCluster.length := by omega
      simp [c1, c2, c3]

/-- C10: with a planned count from 1 to 4 that differs from the prior count the
reorder hook returns no error and the diff it hands back is the diff it was
given, with no key set. -/
theorem reorder_count_changed (diff : ResourceDiff)
    (h1 : 1 ≤ diff.newCluster.length) (h4 : diff.newCluster.length ≤ 4)
    (hne : diff.oldCluster.length ≠ diff.newCluster.length) :
    resourceBigtableInstanceClusterReorderTypeList diff = (none, diff) := by
  unfold resourceBigtableInstanceClusterReorderTypeList
  simp only [ResourceDiff.GetChangeClusterCount]
  have c1 : ¬ ((diff.newCluster.length : Int) < 1) := by omega
  have c2 : ¬ ((diff.newCluster.length : Int) > 4) := by omega
  have c3 : (diff.oldCluster.length : Int) ≠ diff.newCluster.length := by omega
  simp [c1, c2, c3]

/-- The ids of the list the hook writes: the prior ids that are not empty and
that some planned block carries, in prior order. -/
theorem reorder_written_ids (diff : ResourceDiff)
    (hlen : diff.oldCluster.length = diff.newCluster.length)
    (h1 : 1 ≤ diff.newCluster.length) (h4 : diff.newCluster.length ≤ 4) :
    (resourceBigtableInstanceClusterReorderTypeList diff).2.newCluster.map Cluster.cluster_id =
      ((diff.oldCluster.map Cluster.cluster_id).filter (fun s => decide (s ≠ ""))).filter
        (fun s => decide (s ∈ diff.newCluster.map Cluster.cluster_id)) := by
  rw [reorder_equal_counts diff hlen h1 h4]
  simp only
  rw [filterMap_get_ids _ (keyedById_new _)]
  apply List.filter_congr
  intro s _
  simp

/-- C3 (amended): with equal counts from 1 to 4 the hook sets "cluster", and any
two non-empty ids that both occur among the planned blocks and of which the
first precedes the second in the prior list keep that order in the written
list. -/
theorem reorder_keeps_old_order (diff : ResourceDiff) (x y : String)
    (hlen : diff.oldCluster.length = diff.newCluster.length)
    (h1 : 1 ≤ diff.newCluster.length) (h4 : diff.newCluster.length ≤ 4)
    (hx : x ≠ "") (hy : y ≠ "")
    (hxn : x ∈ diff.newCluster.map Cluster.cluster_id)
    (hyn : y ∈ diff.newCluster.map Cluster.cluster_id)
    (hxy : precedes x y (diff.oldCluster.map Cluster.cluster_id)) :
    (resourceBigtableInstanceClusterReorderTypeList diff).1 = none ∧
    "cluster" ∈ (resourceBigtableInstanceClusterReorderTypeList diff).2.updatedKeys ∧
    precedes x y
      ((resourceBigtableInstanceClusterReorderTypeList diff).2.newCluster.map
        Cluster.cluster_id) := by
  refine ⟨?_, ?_, ?_⟩
  · rw [reorder_equal_counts diff hlen h1 h4]
  · rw [reorder_equal_counts diff hlen h1 h4]; simp
  · rw [reorder_written_ids diff hlen h1 h4]
    unfold precedes at hxy ⊢
    have e1 : [x, y].filter (fun s => decide (s ≠ "")) = [x, y] := by
      simp [List.filter_cons, hx, hy]
    have e2 : [x, y].filter (fun s => decide (s ∈ diff.newCluster.map Cluster.cluster_id)) =
        [x, y] := by
      rw [List.filter_cons_of_pos (by simpa using hxn),
        List.filter_cons_of_pos (by simpa using hyn), List.filter_nil]
    have s1 := (hxy.filter (fun s => decide (s ≠ ""))).filter
      (fun s => decide (s ∈ diff.newCluster.map Cluster.cluster_id))
    rw [e1, e2] at s1
    exact s1

/-! ## Lemmas on Read -/

theorem readClusters_all_found_or_404 (c : InstanceAdminClient) (q : String → String)
    (n : String) (l : List Cluster) (acc : List Cluster) (ev : List Event)
    (h : ∀ cl ∈ l, ∀ e, c.GetCluster n cl.cluster_id = .error e →
      isGoogleApiErrorWithCode e 404 = true) :
    (readClusters c q n l acc ev).1 = .ok (acc ++ l.filterMap (foundCluster c n)) := by
  induction l generalizing acc ev with
  | nil => simp [readClusters]
  | cons cl rest ih =>
    have hrest : ∀ x ∈ rest, ∀ e, c.GetCluster n x.cluster_id = .error e →
        isGoogleApiErrorWithCode e 404 = true :=
      fun x hx e he => h x (List.mem_cons_of_mem _ hx) e he
    unfold readClusters
    cases hg : c.GetCluster n cl.cluster_id with
    | error e =>
      have h404 := h cl (List.mem_cons_self _ _) e hg
      simp only [h404, if_true]
      have hf : foundCluster c n cl = none := by simp [foundCluster, hg]
      rw [ih _ _ hrest, List.filterMap_cons_none hf]
    | ok clus =>
      simp only
      have hf : foundCluster c n cl = some (flattenBigtableCluster clus cl.storage_type) := by
        simp [foundCluster, hg, flattenBigtableCluster]
      rw [ih _ _ hrest, List.filterMap_cons_some hf, List.append_assoc, List.singleton_append]

theorem readClusters_other_error (c : InstanceAdminClient) (q : String → String)
    (n : String) (l : List Cluster) (acc : List Cluster) (ev : List Event)
    (h : ∃ cl ∈ l, ∃ e, c.GetCluster n cl.cluster_id = .error e ∧
      isGoogleApiErrorWithCode e 404 = false) :
    ∃ err, (readClusters c q n l acc ev).1 = .error err := by
  induction l generalizing acc ev with
  | nil => obtain ⟨cl, hcl, _⟩ := h; simp at hcl
  | cons cl rest ih =>
    unfold readClusters
    cases hg : c.GetCluster n cl.cluster_id with
    | error e =>
      by_cases h404 : isGoogleApiErrorWithCode e 404 = true
      · simp only [h404, if_true]
        apply ih
        obtain ⟨x, hx, e', he', hn⟩ := h
        rcases List.mem_cons.1 hx with rfl | hx'
        · rw [hg] at he'
          cases he'
          rw [h404] at hn
          cases hn
        · exact ⟨x, hx', e', he', hn⟩
      · simp only [h404]
        exact ⟨_, rfl⟩
    | ok clus =>
      simp only
      apply ih
      obtain ⟨x, hx, e', he', hn⟩ := h
      rcases List.mem_cons.1 hx with rfl | hx'
      · rw [hg] at he'
        cases he'
      · exact ⟨x, hx', e', he', hn⟩

/-- C6: once the instance lookup of Read has succeeded, (1) when every failing
GetCluster call on a locally known cluster id fails with a 404, Read returns no
error and the stored cluster list holds, in local order, one block for each
locally known cluster that was found and none for the others; the block has the
live cluster's Name as cluster_id, its Zone as zone, its ServeNodes as
num_nodes, and the locally known storage_type; (2) when some GetCluster call on
a locally known id fails with another error, Read returns an error and the
stored cluster list is the one it was. -/
theorem read_cluster_state (config : Config) (d : ResourceData) (project : String)
    (c : InstanceAdminClient) (inst : InstanceInfo)
    (hp : config.getProject d = .ok project)
    (hc : config.NewInstanceAdminClient project = .ok c)
    (hi : c.InstanceInfo d.id = .ok inst) :
    ((∀ cl ∈ d.cluster, ∀ e, c.GetCluster inst.Name cl.cluster_id = .error e →
        isGoogleApiErrorWithCode e 404 = true) →
      (resourceBigtableInstanceRead config d).err = none ∧
      (resourceBigtableInstanceRead config d).d.cluster =
        d.cluster.filterMap (foundCluster c inst.Name)) ∧
    ((∃ cl ∈ d.cluster, ∃ e, c.GetCluster inst.Name cl.cluster_id = .error e ∧
        isGoogleApiErrorWithCode e 404 = false) →
      (resourceBigtableInstanceRead config d).err.isSome = true ∧
      (resourceBigtableInstanceRead config d).d.cluster = d.cluster) := by
  constructor
  · intro h
    have hr := readClusters_all_found_or_404 c config.fmtQ inst.Name d.cluster []
      [Event.NewInstanceAdminClient project, Event.InstanceInfo d.id] h
    unfold resourceBigtableInstanceRead
    simp only [hp, hc, hi]
    generalize readClusters c config.fmtQ inst.Name d.cluster []
      [Event.NewInstanceAdminClient project, Event.InstanceInfo d.id] = r at hr
    obtain ⟨r1, r2⟩ := r
    simp only at hr
    subst hr
    simp [ResourceData.SetCluster]
  · intro h
    obtain ⟨err, hr⟩ := readClusters_other_error c config.fmtQ inst.Name d.cluster []
      [Event.NewInstanceAdminClient project, Event.InstanceInfo d.id] h
    unfold resourceBigtableInstanceRead
    simp only [hp, hc, hi]
    generalize readClusters c config.fmtQ inst.Name d.cluster []
      [Event.NewInstanceAdminClient project, Event.InstanceInfo d.id] = r at hr
    obtain ⟨r1, r2⟩ := r
    simp only at hr
    subst hr
    simp

/-! ## Lemmas on Update -/

theorem buildClusterMap_foldl (l : List ClusterInfo) (acc : GoMap ClusterInfo) :
    l.foldl (fun clusterMap cluster => GoMap.set clusterMap cluster.Name cluster) acc =
      (l.map (fun cl => (cl.Name, cl))).reverse ++ acc := by
  induction l generalizing acc with
  | nil => simp
  | cons x rest ih =>
    rw [List.foldl_cons, ih]
    simp [GoMap.set]

theorem lookup_map_name (l : List ClusterInfo) (id : String) :
    List.lookup id (l.map (fun cl => (cl.Name, cl))) =
      l.find? (fun cl => decide (cl.Name = id)) := by
  induction l with
  | nil => simp
  | cons x rest ih =>
    by_cases h : x.Name = id
    · have hb : (id == x.Name) = true := by simp [h]
      simp [List.lookup, hb, h]
    · have hb : (id == x.Name) = false := by
        simp only [beq_eq_false_iff_ne, ne_eq]
        exact fun e => h e.symm
      simp [List.lookup, hb, h, ih]

theorem buildClusterMap_get (live : List ClusterInfo) (id : String) :
    (buildClusterMap live).get id = liveClusterNamed live id := by
  unfold buildClusterMap liveClusterNamed GoMap.get
  rw [buildClusterMap_foldl, List.append_nil, ← List.map_reverse, lookup_map_name]

theorem liveClusterNamed_name (live : List ClusterInfo) (id : String) (l : ClusterInfo)
    (h : liveClusterNamed live id = some l) : l.Name = id := by
  unfold liveClusterNamed at h
  have := List.find?_some h
  simpa using this

theorem updateClusters_no_failure (c : InstanceAdminClient) (name : String)
    (live : List ClusterInfo) (l : List Cluster) (ev : List Event)
    (hu : ∀ i k n, c.UpdateCluster i k n = none) :
    updateClusters c name (buildClusterMap live) l ev =
      (none, ev ++ (l.filter (needsUpdate live)).map
        (fun cl => Event.UpdateCluster name cl.cluster_id (toInt32 cl.num_nodes))) := by
  induction l generalizing ev with
  | nil => simp [updateClusters]
  | cons cl rest ih =>
    unfold updateClusters
    simp only [buildClusterMap_get]
    cases hg : liveClusterNamed live cl.cluster_id with
    | none =>
      have hn : needsUpdate live cl = false := by simp [needsUpdate, hg]
      simp only [ih, List.filter_cons, hn]
      simp
    | some lc =>
      have hname := liveClusterNamed_name live _ lc hg
      by_cases hs : lc.ServeNodes = cl.num_nodes
      · have hn : needsUpdate live cl = false := by simp [needsUpdate, hg, hs]
        simp only [hs, ne_eq, not_true_eq_false, if_false, ih, List.filter_cons, hn]
        simp
      · have hn : needsUpdate live cl = true := by simp [needsUpdate, hg, hs]
        simp only [hs, ne_eq, not_false_eq_true, if_true, hu, ih, List.filter_cons, hn,
          List.map_cons, hname, List.append_assoc, List.singleton_append]

theorem updateClusterCalls_append (a b : List Event) :
    updateClusterCalls (a ++ b) = updateClusterCalls a ++ updateClusterCalls b := by
  simp [updateClusterCalls, List.filterMap_append]

theorem updateClusterCalls_readClusters (c : InstanceAdminClient) (q : String → String)
    (n : String) (l : List Cluster) (acc : List Cluster) (ev : List Event) :
    updateClusterCalls (readClusters c q n l acc ev).2 = updateClusterCalls ev := by
  induction l generalizing acc ev with
  | nil => simp [readClusters]
  | cons cl rest ih =>
    unfold readClusters
    cases hg : c.GetCluster n cl.cluster_id with
    | error e =>
      by_cases h404 : isGoogleApiErrorWithCode e 404 = true
      · simp only [h404, if_true, ih]
        simp [updateClusterCalls, List.filterMap_append]
      · simp only [h404]
        simp [updateClusterCalls, List.filterMap_append]
    | ok clus =>
      simp only [ih]
      simp [updateClusterCalls, List.filterMap_append]

theorem updateClusterCalls_read (config : Config) (d : ResourceData) :
    updateClusterCalls (resourceBigtableInstanceRead config d).events = [] := by
  unfold resourceBigtableInstanceRead
  cases hp : config.getProject d with
  | error e => simp [updateClusterCalls]
  | ok project =>
    cases hc : config.NewInstanceAdminClient project with
    | error e => simp [updateClusterCalls, hc]
    | ok c =>
      cases hi : c.InstanceInfo d.id with
      | error e => simp [updateClusterCalls, hc, hi]
      | ok inst =>
        simp only [hc, hi]
        have hr := updateClusterCalls_readClusters c config.fmtQ inst.Name d.cluster []
          [Event.NewInstanceAdminClient project, Event.InstanceInfo d.id]
        generalize readClusters c config.fmtQ inst.Name d.cluster []
          [Event.NewInstanceAdminClient project, Event.InstanceInfo d.id] = r at hr
        obtain ⟨r1, r2⟩ := r
        cases r1 with
        | error e =>
          simp only [updateClusterCalls_append, hr]
          simp [updateClusterCalls]
        | ok st =>
          simp only [ResourceData.SetCluster, updateClusterCalls_append, hr]
          simp [updateClusterCalls]

theorem toInt32_of_fits (x : Int) (h1 : -2147483648 ≤ x) (h2 : x < 2147483648) :
    toInt32 x = x := by
  unfold toInt32
  omega

theorem update_calls_eq (config : Config) (d : ResourceData) (project : String)
    (c : InstanceAdminClient) (live : List ClusterInfo)
    (hp : config.getProject d = .ok project)
    (hc : config.NewInstanceAdminClient project = .ok c)
    (hl : c.Clusters d.name = .ok live)
    (hu : ∀ i k n, c.UpdateCluster i k n = none) :
    updateClusterCalls (resourceBigtableInstanceUpdate config d).events =
      (d.cluster.filter (needsUpdate live)).map
        (fun cl => (d.name, cl.cluster_id, toInt32 cl.num_nodes)) := by
  unfold resourceBigtableInstanceUpdate
  simp only [hp, hc, hl, updateClusters_no_failure c d.name live d.cluster _ hu,
    updateClusterCalls_append, updateClusterCalls_read]
  simp only [updateClusterCalls, List.filterMap_cons, List.filterMap_nil, List.nil_append,
    List.append_nil, List.filterMap_map]
  induction d.cluster.filter (needsUpdate live) with
  | nil => rfl
  | cons x rest ih => simp [List.filterMap_cons, ih]

theorem createCalls_append (a b : List Event) :
    createCalls (a ++ b) = createCalls a ++ createCalls b := by
  simp [createCalls, List.filterMap_append]

theorem createCalls_readClusters (c : InstanceAdminClient) (q : String → String)
    (n : String) (l : List Cluster) (acc : List Cluster) (ev : List Event) :
    createCalls (readClusters c q n l acc ev).2 = createCalls ev := by
  induction l generalizing acc ev with
  | nil => simp [readClusters]
  | cons cl rest ih =>
    unfold readClusters
    cases hg : c.GetCluster n cl.cluster_id with
    | error e =>
      by_cases h404 : isGoogleApiErrorWithCode e 404 = true
      · simp only [h404, if_true, ih]
        simp [createCalls, List.filterMap_append]
      · simp only [h404]
        simp [createCalls, List.filterMap_append]
    | ok clus =>
      simp only [ih]
      simp [createCalls, List.filterMap_append]

theorem createCalls_read (config : Config) (d : ResourceData) :
    createCalls (resourceBigtableInstanceRead config d).events = [] := by
  unfold resourceBigtableInstanceRead
  cases hp : config.getProject d with
  | error e => simp [createCalls]
  | ok project =>
    cases hc : config.NewInstanceAdminClient project with
    | error e => simp [createCalls, hc]
    | ok c =>
      cases hi : c.InstanceInfo d.id with
      | error e => simp [createCalls, hc, hi]
      | ok inst =>
        simp only [hc, hi]
        have hr := createCalls_readClusters c config.fmtQ inst.Name d.cluster []
          [Event.NewInstanceAdminClient project, Event.InstanceInfo d.id]
        generalize readClusters c config.fmtQ inst.Name d.cluster []
          [Event.NewInstanceAdminClient project, Event.InstanceInfo d.id] = r at hr
        obtain ⟨r1, r2⟩ := r
        cases r1 with
        | error e =>
          simp only [createCalls_append, hr]
          simp [createCalls]
        | ok st =>
          simp only [ResourceData.SetCluster, createCalls_append, hr]
          simp [createCalls]

/-- Read leaves the tracking id as it was, except that a failing instance lookup
clears it; a failing instance lookup makes Read return an error. -/
theorem read_id (config : Config) (d : ResourceData) :
    (resourceBigtableInstanceRead config d).d.id =
      (if instanceLookupFails config d = true then "" else d.id) ∧
    (instanceLookupFails config d = true →
      (resourceBigtableInstanceRead config d).err.isSome = true) := by
  unfold resourceBigtableInstanceRead instanceLookupFails
  cases hp : config.getProject d with
  | error e => simp
  | ok project =>
    cases hc : config.NewInstanceAdminClient project with
    | error e => simp [hc]
    | ok c =>
      cases hi : c.InstanceInfo d.id with
      | error e => simp [hc, hi, ResourceData.SetId]
      | ok inst =>
        simp only [hc, hi]
        generalize readClusters c config.fmtQ inst.Name d.cluster []
          [Event.NewInstanceAdminClient project, Event.InstanceInfo d.id] = r
        obtain ⟨r1, r2⟩ := r
        cases r1 with
        | error e => simp
        | ok st => simp [ResourceData.SetCluster]

/-- C9 (amended): when Create gets as far as the remote call, it submits one
configuration, whose InstanceID is the configured name and whose DisplayName is
the configured display_name when that is not empty and the instance name
otherwise; when the remote create call succeeds, the call of SetId with the
instance name follows it at once, and when Create returns the tracking id is
the instance name, unless the instance lookup of the read-back fails: then the
tracking id is the empty text and Create returns an error. -/
theorem create_submits_conf (config : Config) (d : ResourceData) (project : String)
    (c : InstanceAdminClient)
    (hp : config.getProject d = .ok project)
    (hc : config.NewInstanceAdminClient project = .ok c) :
    ∃ conf : InstanceWithClustersConfig,
      createCalls (resourceBigtableInstanceCreate config d).events = [conf] ∧
      conf.InstanceID = d.name ∧
      conf.DisplayName = (if d.display_name ≠ "" then d.display_name else d.name) ∧
      (c.CreateInstanceWithClusters conf = none →
        (resourceBigtableInstanceCreate config d).events.take 3 =
          [Event.NewInstanceAdminClient project, Event.CreateInstanceWithClusters conf,
           Event.SetId d.name] ∧
        (resourceBigtableInstanceCreate config d).d.id =
          (if instanceLookupFails config (d.SetId d.name) = true then "" else d.name) ∧
        (instanceLookupFails config (d.SetId d.name) = true →
          (resourceBigtableInstanceCreate config d).err.isSome = true)) := by
  refine ⟨createConf d, ?_, rfl, ?_, ?_⟩
  · unfold resourceBigtableInstanceCreate
    simp only [hp, hc]
    cases hcr : c.CreateInstanceWithClusters (createConf d) with
    | some e => simp [createCalls]
    | none =>
      simp only [createCalls_append, createCalls_read]
      simp [createCalls]
  · by_cases hd : d.display_name = "" <;> simp [createConf, ResourceData.GetOkDisplayName, hd]
  · intro hcr
    have hC : resourceBigtableInstanceCreate config d =
        ⟨(resourceBigtableInstanceRead config (d.SetId d.name)).err,
         (resourceBigtableInstanceRead config (d.SetId d.name)).d,
         [Event.NewInstanceAdminClient project, Event.CreateInstanceWithClusters (createConf d),
          Event.SetId d.name] ++ (resourceBigtableInstanceRead config (d.SetId d.name)).events ++
          [Event.Close]⟩ := by
      unfold resourceBigtableInstanceCreate
      simp only [hp, hc, hcr]
      rfl
    rw [hC]
    have hr := read_id config (d.SetId d.name)
    exact ⟨by simp, hr.1, hr.2⟩

/-- C8: Destroy calls DeleteInstance only with the tracking id, and (1) with the
project known and the client open it makes that call once; when the call
succeeds Destroy returns no error and leaves the data with the tracking id
cleared to the empty text, and when the call fails Destroy returns an error and
leaves the data as it was; (2) when opening the client fails, or the project is
not known, Destroy returns an error, calls nothing and leaves the data as it
was. -/
theorem destroy_outcome (config : Config) (d : ResourceData) :
    (∀ n ∈ deleteCalls (resourceBigtableInstanceDestroy config d).events, n = d.id) ∧
    (∀ project c, config.getProject d = .ok project →
      config.NewInstanceAdminClient project = .ok c →
      deleteCalls (resourceBigtableInstanceDestroy config d).events = [d.id] ∧
      (c.DeleteInstance d.id = none →
        (resourceBigtableInstanceDestroy config d).err = none ∧
        (resourceBigtableInstanceDestroy config d).d = { d with id := "" }) ∧
      (∀ e, c.DeleteInstance d.id = some e →
        (resourceBigtableInstanceDestroy config d).err.isSome = true ∧
        (resourceBigtableInstanceDestroy config d).d = d)) ∧
    (∀ project e, config.getProject d = .ok project →
      config.NewInstanceAdminClient project = .error e →
      (resourceBigtableInstanceDestroy config d).err.isSome = true ∧
      (resourceBigtableInstanceDestroy config d).d = d ∧
      deleteCalls (resourceBigtableInstanceDestroy config d).events = []) ∧
    (∀ e, config.getProject d = .error e →
      (resourceBigtableInstanceDestroy config d).err = some e ∧
      (resourceBigtableInstanceDestroy config d).d = d ∧
      deleteCalls (resourceBigtableInstanceDestroy config d).events = []) := by
  refine ⟨?_, ?_, ?_, ?_⟩
  · intro n hn
    unfold resourceBigtableInstanceDestroy at hn
    cases hp : config.getProject d with
    | error e => simp [hp, deleteCalls] at hn
    | ok project =>
      cases hc : config.NewInstanceAdminClient project with
      | error e => simp [hp, hc, deleteCalls] at hn
      | ok c =>
        cases hdel : c.DeleteInstance d.id with
        | some e =>
          simp [hp, hc, hdel, deleteCalls] at hn
          exact hn
        | none =>
          simp [hp, hc, hdel, deleteCalls] at hn
          exact hn
  · intro project c hp hc
    unfold resourceBigtableInstanceDestroy
    simp only [hp, hc]
    cases hdel : c.DeleteInstance d.id with
    | some e => simp [deleteCalls]
    | none => simp [deleteCalls, ResourceData.SetId]
  · intro project e hp hc
    unfold resourceBigtableInstanceDestroy
    simp [hp, hc, deleteCalls]
  · intro e hp
    unfold resourceBigtableInstanceDestroy
    simp [hp, deleteCalls]

theorem validateDevelopment_examples :
    resourceBigtableInstanceValidateDevelopment ⟨"DEVELOPMENT", [], [clusterA 0], []⟩ = none ∧
    (resourceBigtableInstanceValidateDevelopment
      ⟨"DEVELOPMENT", [], [clusterA 3], []⟩).isSome = true ∧
    (resourceBigtableInstanceValidateDevelopment
      ⟨"DEVELOPMENT", [], [clusterA 0, clusterB], []⟩).isSome = true ∧
    resourceBigtableInstanceValidateDevelopment
      ⟨"PRODUCTION", [], [clusterA 3, clusterB], []⟩ = none := by
  decide

theorem reorder_bounds_witness :
    (resourceBigtableInstanceClusterReorderTypeList
      ⟨"PRODUCTION", [clusterA 3], [], []⟩).1.isSome = true ∧
    (resourceBigtableInstanceClusterReorderTypeList
      ⟨"PRODUCTION", [clusterA 3], [clusterB, clusterA 3], []⟩).1 = none := by
  exact ⟨((reorder_bounds ⟨"PRODUCTION", [clusterA 3], [], []⟩).1 (Or.inl (by decide))).1,
    (reorder_bounds ⟨"PRODUCTION", [clusterA 3], [clusterB, clusterA 3], []⟩).2
      ⟨by decide, by decide⟩⟩

theorem reorder_count_changed_witness :
    resourceBigtableInstanceClusterReorderTypeList
      ⟨"PRODUCTION", [clusterA 3], [clusterB, clusterA 3], []⟩ =
      (none, ⟨"PRODUCTION", [clusterA 3], [clusterB, clusterA 3], []⟩) :=
  reorder_count_changed ⟨"PRODUCTION", [clusterA 3], [clusterB, clusterA 3], []⟩
    (by decide) (by decide) (by decide)

theorem reorder_keeps_old_order_witness :
    precedes "a" "b"
      ((resourceBigtableInstanceClusterReorderTypeList
        ⟨"PRODUCTION", [clusterA 3, clusterB], [clusterB, clusterA 3], []⟩).2.newCluster.map
        Cluster.cluster_id) :=
  (reorder_keeps_old_order ⟨"PRODUCTION", [clusterA 3, clusterB], [clusterB, clusterA 3], []⟩
    "a" "b" (by decide) (by decide) (by decide) (by decide) (by decide) (by decide) (by decide)
    (by decide)).2.2

/-- C3 as first stated fails for the empty id: the prior and the planned list
both hold a block with the empty id before block "b", the hook writes the list
that holds only block "b", and the empty id does not precede "b" there. -/
theorem reorder_empty_id_counterexample :
    let diff : ResourceDiff :=
      ⟨"PRODUCTION", [clusterNoId, clusterB], [clusterNoId, clusterB], []⟩
    diff.oldCluster.length = diff.newCluster.length ∧
    1 ≤ diff.newCluster.length ∧ diff.newCluster.length ≤ 4 ∧
    "" ∈ diff.oldCluster.map Cluster.cluster_id ∧
    "b" ∈ diff.oldCluster.map Cluster.cluster_id ∧
    "" ∈ diff.newCluster.map Cluster.cluster_id ∧
    "b" ∈ diff.newCluster.map Cluster.cluster_id ∧
    precedes "" "b" (diff.oldCluster.map Cluster.cluster_id) ∧
    (resourceBigtableInstanceClusterReorderTypeList diff).2.newCluster = [clusterB] ∧
    ¬ precedes "" "b"
      ((resourceBigtableInstanceClusterReorderTypeList diff).2.newCluster.map
        Cluster.cluster_id) := by
  decide

/-- C4 fails on the code: with prior list [a] and planned list [b] the hook
writes the empty list, which is no permutation of the planned list. -/
theorem reorder_drops_renamed_cluster :
    (resourceBigtableInstanceClusterReorderTypeList
      ⟨"PRODUCTION", [clusterA 3], [clusterB], []⟩) =
      (none, ⟨"PRODUCTION", [clusterA 3], [], ["cluster"]⟩) ∧
    ¬ List.Perm
      (resourceBigtableInstanceClusterReorderTypeList
        ⟨"PRODUCTION", [clusterA 3], [clusterB], []⟩).2.newCluster
      [clusterB] := by
  have h : (resourceBigtableInstanceClusterReorderTypeList
      ⟨"PRODUCTION", [clusterA 3], [clusterB], []⟩) =
      (none, ⟨"PRODUCTION", [clusterA 3], [], ["cluster"]⟩) := by decide
  refine ⟨h, ?_⟩
  rw [h]
  intro hperm
  have := hperm.length_eq
  simp at this

/-- C5 (amended): when opening the client, listing the live clusters and every
UpdateCluster call succeed, the UpdateCluster calls of Update are, in declared
order, one call for each declared cluster whose id names a live cluster (the
last of that name in the live list) with a different serve node count; the call
carries the instance name, the cluster id and the declared node count converted
to 32 bits, which is the declared node count itself when every declared count
fits in 32 bits. -/
theorem update_issues_calls (config : Config) (d : ResourceData) (project : String)
    (c : InstanceAdminClient) (live : List ClusterInfo)
    (hp : config.getProject d = .ok project)
    (hc : config.NewInstanceAdminClient project = .ok c)
    (hl : c.Clusters d.name = .ok live)
    (hu : ∀ i k n, c.UpdateCluster i k n = none) :
    updateClusterCalls (resourceBigtableInstanceUpdate config d).events =
      (d.cluster.filter (needsUpdate live)).map
        (fun cl => (d.name, cl.cluster_id, toInt32 cl.num_nodes)) ∧
    ((∀ cl ∈ d.cluster, -2147483648 ≤ cl.num_nodes ∧ cl.num_nodes < 2147483648) →
      updateClusterCalls (resourceBigtableInstanceUpdate config d).events =
        (d.cluster.filter (needsUpdate live)).map
          (fun cl => (d.name, cl.cluster_id, cl.num_nodes))) := by
  have h := update_calls_eq config d project c live hp hc hl hu
  refine ⟨h, ?_⟩
  intro hfit
  rw [h]
  apply List.map_congr_left
  intro cl hcl
  have hmem : cl ∈ d.cluster := (List.mem_filter.1 hcl).1
  rw [toInt32_of_fits _ (hfit cl hmem).1 (hfit cl hmem).2]

theorem update_issues_calls_witness :
    updateClusterCalls
      (resourceBigtableInstanceUpdate sampleConfig
        (sampleData [clusterB, clusterA 5, clusterGone])).events = [("inst", "a", 5)] := by
  have h := (update_issues_calls sampleConfig (sampleData [clusterB, clusterA 5, clusterGone])
    "proj" sampleClient [⟨"a", "us-east1-b", 3⟩] rfl rfl rfl (fun _ _ _ => rfl)).2 (by decide)
  rw [h]
  decide

/-- C5 as first stated fails where the declared node count does not fit in 32
bits: no remote call fails, the live cluster "a" has 3 serve nodes and the
declared cluster "a" has 4294967299 nodes; the sentence asks for one call
carrying 4294967299, and Update issues one call carrying 3. -/
theorem update_truncates_counterexample :
    (resourceBigtableInstanceUpdate sampleConfig (sampleData [clusterA 4294967299])).err = none ∧
    sampleClient.Clusters "inst" = .ok [⟨"a", "us-east1-b", 3⟩] ∧
    statedUpdateCalls [⟨"a", "us-east1-b", 3⟩] (sampleData [clusterA 4294967299]) =
      [("inst", "a", 4294967299)] ∧
    updateClusterCalls
      (resourceBigtableInstanceUpdate sampleConfig (sampleData [clusterA 4294967299])).events =
      [("inst", "a", 3)] ∧
    updateClusterCalls
      (resourceBigtableInstanceUpdate sampleConfig (sampleData [clusterA 4294967299])).events ≠
      statedUpdateCalls [⟨"a", "us-east1-b", 3⟩] (sampleData [clusterA 4294967299]) :=
  ⟨by decide, rfl, by decide, by decide, by decide⟩

theorem read_cluster_state_witness :
    ((resourceBigtableInstanceRead variedConfig
        (sampleData [⟨"a", "asia-east1-a", 5, "SSD"⟩, clusterGone,
          ⟨"b", "asia-east1-b", 4, "HDD"⟩])).err = none ∧
      (resourceBigtableInstanceRead variedConfig
        (sampleData [⟨"a", "asia-east1-a", 5, "SSD"⟩, clusterGone,
          ⟨"b", "asia-east1-b", 4, "HDD"⟩])).d.cluster =
        [⟨"a", "us-east1-b", 3, "SSD"⟩, ⟨"b", "europe-west1-c", 7, "HDD"⟩]) ∧
    ((resourceBigtableInstanceRead sampleConfig
        (sampleData [clusterA 5, clusterDown])).err.isSome = true ∧
      (resourceBigtableInstanceRead sampleConfig (sampleData [clusterA 5, clusterDown])).d.cluster =
        [clusterA 5, clusterDown]) := by
  constructor
  · have h := (read_cluster_state variedConfig
      (sampleData [⟨"a", "asia-east1-a", 5, "SSD"⟩, clusterGone, ⟨"b", "asia-east1-b", 4, "HDD"⟩])
      "proj" variedClient ⟨"inst", "display"⟩ rfl rfl rfl).1 (by
        intro cl hcl e he
        simp only [sampleData, List.mem_cons, List.mem_singleton, List.not_mem_nil, or_false]
          at hcl
        rcases hcl with rfl | rfl | rfl
        · simp [variedClient] at he
        · simp [variedClient, clusterGone] at he
          subst he
          decide
        · simp [variedClient] at he)
    refine ⟨h.1, ?_⟩
    rw [h.2]
    decide
  · exact (read_cluster_state sampleConfig (sampleData [clusterA 5, clusterDown]) "proj"
      sampleClient ⟨"inst", "display"⟩ rfl rfl rfl).2
        ⟨clusterDown, by simp [sampleData], ⟨"backend unavailable", some 503⟩, rfl,
          by decide⟩

/-- C7 fails on the code: the live cluster "a" has 3 serve nodes, the declared
cluster "a" has 5, and the UpdateCluster call is refused with the message
"quota exceeded"; the error Update returns reads "Error updating cluster a for
instance inst" and does not contain the message of the refusal. -/
theorem update_error_drops_cause :
    refusingClient.UpdateCluster "inst" "a" 5 = some ⟨"quota exceeded", some 429⟩ ∧
    (resourceBigtableInstanceUpdate refusingConfig (sampleData [clusterA 5])).events =
      [Event.NewInstanceAdminClient "proj", Event.Clusters "inst",
       Event.UpdateCluster "inst" "a" 5, Event.Close] ∧
    (resourceBigtableInstanceUpdate refusingConfig (sampleData [clusterA 5])).err =
      some (Errorf "Error updating cluster a for instance inst") ∧
    ¬ containsText "Error updating cluster a for instance inst" "quota exceeded" := by
  decide

theorem destroy_outcome_witness :
    ((resourceBigtableInstanceDestroy sampleConfig (sampleData [clusterA 3])).err = none ∧
      (resourceBigtableInstanceDestroy sampleConfig (sampleData [clusterA 3])).d =
        { sampleData [clusterA 3] with id := "" }) ∧
    ((resourceBigtableInstanceDestroy undeletableConfig (sampleData [clusterA 3])).err.isSome =
        true ∧
      (resourceBigtableInstanceDestroy undeletableConfig (sampleData [clusterA 3])).d =
        sampleData [clusterA 3]) ∧
    ((resourceBigtableInstanceDestroy offlineConfig (sampleData [clusterA 3])).err.isSome = true ∧
      (resourceBigtableInstanceDestroy offlineConfig (sampleData [clusterA 3])).d =
        sampleData [clusterA 3] ∧
      deleteCalls (resourceBigtableInstanceDestroy offlineConfig (sampleData [clusterA 3])).events =
        []) :=
  ⟨((destroy_outcome sampleConfig (sampleData [clusterA 3])).2.1 "proj" sampleClient rfl
      rfl).2.1 rfl,
   ((destroy_outcome undeletableConfig (sampleData [clusterA 3])).2.1 "proj" undeletableClient
      rfl rfl).2.2 ⟨"permission denied", some 403⟩ rfl,
   (destroy_outcome offlineConfig (sampleData [clusterA 3])).2.2.1 "proj"
      ⟨"no credentials", none⟩ rfl rfl⟩

theorem create_submits_conf_witness :
    (∃ conf : InstanceWithClustersConfig,
      createCalls
        (resourceBigtableInstanceCreate sampleConfig (newData "Shown" [clusterA 3])).events =
        [conf] ∧
      conf.InstanceID = "inst" ∧ conf.DisplayName = "Shown" ∧
      (resourceBigtableInstanceCreate sampleConfig (newData "Shown" [clusterA 3])).events.take 3 =
        [Event.NewInstanceAdminClient "proj", Event.CreateInstanceWithClusters conf,
         Event.SetId "inst"] ∧
      (resourceBigtableInstanceCreate sampleConfig (newData "Shown" [clusterA 3])).d.id =
        "inst") ∧
    (∃ conf : InstanceWithClustersConfig,
      createCalls
        (resourceBigtableInstanceCreate lostConfig (newData "" [clusterA 3])).events = [conf] ∧
      conf.InstanceID = "inst" ∧ conf.DisplayName = "inst" ∧
      (resourceBigtableInstanceCreate lostConfig (newData "" [clusterA 3])).d.id = "" ∧
      (resourceBigtableInstanceCreate lostConfig (newData "" [clusterA 3])).err.isSome = true) := by
  constructor
  · obtain ⟨conf, h1, h2, h3, h4⟩ :=
      create_submits_conf sampleConfig (newData "Shown" [clusterA 3]) "proj" sampleClient rfl rfl
    have h5 := h4 rfl
    exact ⟨conf, h1, h2, h3, h5.1, h5.2.1⟩
  · obtain ⟨conf, h1, h2, h3, h4⟩ :=
      create_submits_conf lostConfig (newData "" [clusterA 3]) "proj" lostClient rfl rfl
    have h5 := h4 rfl
    exact ⟨conf, h1, h2, h3, h5.2.1, h5.2.2 rfl⟩

/-- C9 as first stated fails when the read-back cannot find the instance: the
data start without a tracking id, the remote create call for instance "inst"
succeeds and SetId is called with "inst", the instance lookup of the read-back
is refused, and Create returns an error with the tracking id empty. -/
theorem create_id_cleared_counterexample :
    lostClient.CreateInstanceWithClusters (createConf (newData "" [clusterA 3])) = none ∧
    (newData "" [clusterA 3]).name = "inst" ∧
    (resourceBigtableInstanceCreate lostConfig (newData "" [clusterA 3])).events =
      [Event.NewInstanceAdminClient "proj",
       Event.CreateInstanceWithClusters (createConf (newData "" [clusterA 3])),
       Event.SetId "inst", Event.NewInstanceAdminClient "proj", Event.InstanceInfo "inst",
       Event.SetId "", Event.Close, Event.Close] ∧
    (resourceBigtableInstanceCreate lostConfig (newData "" [clusterA 3])).d.id = "" ∧
    (resourceBigtableInstanceCreate lostConfig (newData "" [clusterA 3])).d.id ≠
      (newData "" [clusterA 3]).name := by
  decide

/-! ## Error wrapping at the failure sites that keep the cause -/

theorem containsText_append (a b : String) : containsText (a ++ b) b := by
  unfold containsText
  rw [String.data_append]
  exact (List.suffix_append _ _).isInfix

/-- Each operation wraps a failure to open the client with its message. -/
theorem client_failure_wrapped (config : Config) (d : ResourceData) (project : String)
    (e : GoError) (hp : config.getProject d = .ok project)
    (hc : config.NewInstanceAdminClient project = .error e) :
    (∃ r, (resourceBigtableInstanceCreate config d).err = some r ∧ containsText r.msg e.msg) ∧
    (∃ r, (resourceBigtableInstanceRead config d).err = some r ∧ containsText r.msg e.msg) ∧
    (∃ r, (resourceBigtableInstanceUpdate config d).err = some r ∧ containsText r.msg e.msg) ∧
    (∃ r, (resourceBigtableInstanceDestroy config d).err = some r ∧
      containsText r.msg e.msg) := by
  refine ⟨⟨Errorf ("Error starting instance admin client. " ++ e.msg), ?_,
    containsText_append "Error starting instance admin client. " e.msg⟩,
    ⟨Errorf ("Error starting instance admin client. " ++ e.msg), ?_,
    containsText_append "Error starting instance admin client. " e.msg⟩,
    ⟨Errorf ("Error starting instance admin client. " ++ e.msg), ?_,
    containsText_append "Error starting instance admin client. " e.msg⟩,
    ⟨Errorf ("Error starting instance admin client. " ++ e.msg), ?_,
    containsText_append "Error starting instance admin client. " e.msg⟩⟩
  · unfold resourceBigtableInstanceCreate
    simp only [hp, hc]
  · unfold resourceBigtableInstanceRead
    simp only [hp, hc]
  · unfold resourceBigtableInstanceUpdate
    simp only [hp, hc]
  · unfold resourceBigtableInstanceDestroy
    simp only [hp, hc]

/-- Create wraps a failure of the remote create call with its message. -/
theorem create_failure_wrapped (config : Config) (d : ResourceData) (project : String)
    (c : InstanceAdminClient) (e : GoError) (hp : config.getProject d = .ok project)
    (hc : config.NewInstanceAdminClient project = .ok c)
    (he : c.CreateInstanceWithClusters (createConf d) = some e) :
    ∃ r, (resourceBigtableInstanceCreate config d).err = some r ∧ containsText r.msg e.msg := by
  refine ⟨Errorf ("Error creating instance. " ++ e.msg), ?_,
    containsText_append "Error creating instance. " e.msg⟩
  unfold resourceBigtableInstanceCreate
  simp only [hp, hc, he]

/-- Destroy wraps a failure of the remote delete call with its message. -/
theorem destroy_failure_wrapped (config : Config) (d : ResourceData) (project : String)
    (c : InstanceAdminClient) (e : GoError) (hp : config.getProject d = .ok project)
    (hc : config.NewInstanceAdminClient project = .ok c)
    (he : c.DeleteInstance d.id = some e) :
    ∃ r, (resourceBigtableInstanceDestroy config d).err = some r ∧ containsText r.msg e.msg := by
  refine ⟨Errorf ("Error deleting instance. " ++ e.msg), ?_,
    containsText_append "Error deleting instance. " e.msg⟩
  unfold resourceBigtableInstanceDestroy
  simp only [hp, hc, he]

/-- Update wraps a failure to list the live clusters with its message. -/
theorem update_listing_failure_wrapped (config : Config) (d : ResourceData) (project : String)
    (c : InstanceAdminClient) (e : GoError) (hp : config.getProject d = .ok project)
    (hc : config.NewInstanceAdminClient project = .ok c)
    (he : c.Clusters d.name = .error e) :
    ∃ r, (resourceBigtableInstanceUpdate config d).err = some r ∧ containsText r.msg e.msg := by
  refine ⟨Errorf ("Error retrieving clusters for instance " ++ e.msg), ?_,
    containsText_append "Error retrieving clusters for instance " e.msg⟩
  unfold resourceBigtableInstanceUpdate
  simp only [hp, hc, he]

/-- Read wraps a failure of the instance lookup with its message. -/
theorem read_lookup_failure_wrapped (config : Config) (d : ResourceData) (project : String)
    (c : InstanceAdminClient) (e : GoError) (hp : config.getProject d = .ok project)
    (hc : config.NewInstanceAdminClient project = .ok c)
    (he : c.InstanceInfo d.id = .error e) :
    ∃ r, (resourceBigtableInstanceRead config d).err = some r ∧ containsText r.msg e.msg := by
  refine ⟨Errorf (("Error retrieving instance. Could not find " ++ (d.SetId "").id ++ ". ") ++ e.msg), ?_,
    containsText_append ("Error retrieving instance. Could not find " ++ (d.SetId "").id ++ ". ") e.msg⟩
  unfold resourceBigtableInstanceRead
  simp only [hp, hc, he]

theorem readClusters_error_wrapped (c : InstanceAdminClient) (q : String → String)
    (n : String) (l : List Cluster) (acc : List Cluster) (ev : List Event) (r : GoError)
    (h : (readClusters c q n l acc ev).1 = .error r) :
    ∃ cl ∈ l, ∃ e, c.GetCluster n cl.cluster_id = .error e ∧
      isGoogleApiErrorWithCode e 404 = false ∧ containsText r.msg e.msg := by
  induction l generalizing acc ev with
  | nil => simp [readClusters] at h
  | cons cl rest ih =>
    unfold readClusters at h
    cases hg : c.GetCluster n cl.cluster_id with
    | error e =>
      by_cases h404 : isGoogleApiErrorWithCode e 404 = true
      · simp only [hg, h404, if_true] at h
        obtain ⟨x, hx, e', h1, h2, h3⟩ := ih _ _ h
        exact ⟨x, List.mem_cons_of_mem _ hx, e', h1, h2, h3⟩
      · simp only [hg, h404] at h
        refine ⟨cl, List.mem_cons_self _ _, e, hg, by simpa using h404, ?_⟩
        have hr : r = Errorf ("Error retrieving cluster " ++ q cl.cluster_id ++ ": " ++ e.msg) := by
          simpa using h.symm
        rw [hr]
        exact containsText_append ("Error retrieving cluster " ++ q cl.cluster_id ++ ": ") e.msg
    | ok clus =>
      simp only [hg] at h
      obtain ⟨x, hx, e', h1, h2, h3⟩ := ih _ _ h
      exact ⟨x, List.mem_cons_of_mem _ hx, e', h1, h2, h3⟩

end BigtableInstance
